import Mathlib

/-!
Verification development for the PreOrderSys book pre-order storefront.

The repository ships three variants of the same storefront:
* `src/script.js` — a vanilla script: module-level `books`/`cart`, a
  checkbox-driven `toggleBook`, `updateQuantity`, `removeItem`, an order
  summary renderer and a form submit handler that posts to a remote
  endpoint.
* the React fetch variant (first half of `src/index.jsx`) — `addToCart`,
  `updateQty`, `removeFromCart`, a `filtered` catalog memo and an async
  `submitOrder` posting multipart data.
* the fully local React variant (second half of `src/index.jsx`) —
  `discounted`, `addToCart`, `setQty`, `removeItem`, `clearCart`,
  `printSlip` and a derived `total`; it never talks to a network.

Numbers are modelled as rationals (JS numbers at the magnitudes used here
behave as exact rationals); `Math.round` is Mathlib `round` (both round
half up); `Math.max`/`Math.min` are `max`/`min`.  The JS `a || b` fallback
on an optional numeric field is modelled explicitly (`0` and a missing
value both fall through to `b`).  Remote calls are modelled by passing the
outcome of the (single, in-flight) request as an explicit argument and by
returning a flag recording whether the request was fired at all.
-/

namespace ScriptJs

/-- A book record as consumed by `src/script.js`: rows fetched from the
spreadsheet with a base `price` and an optional server-provided
`discounted` price.  The script has no id column; cart membership is by
object identity, which we model as structural equality of the record
(sound when each catalog row is loaded once). -/
structure Book where
  title : String
  author : String
  genre : String
  price : ℚ
  discounted : Option ℚ
deriving DecidableEq

/-- A cart line of `src/script.js`: `{ book, quantity: 1 }`. -/
structure CartItem where
  book : Book
  quantity : ℤ
deriving DecidableEq

/-- JS `a || b` on an optional numeric field: a missing value or `0` falls
through to `b`, any other number is kept. -/
def jsOr (a : Option ℚ) (b : ℚ) : ℚ :=
  match a with
  | some v => if v = 0 then b else v
  | none => b

/-- `toggleBook` (script.js 67-75): if some cart line already holds this
book it is filtered out, otherwise `{ book, quantity: 1 }` is pushed. -/
def toggleBook (cart : List CartItem) (book : Book) : List CartItem :=
  if cart.any (fun c => c.book == book) then
    cart.filter (fun c => c.book != book)
  else
    cart ++ [{ book := book, quantity := 1 }]

/-- `updateQuantity` (script.js 154-157): `cart[index].quantity =
Number(qty)` — the given value is stored as-is, with no clamping.  An
out-of-range index is a no-op here (the source would throw). -/
def updateQuantity (cart : List CartItem) (index : ℕ) (qty : ℤ) : List CartItem :=
  match cart, index with
  | [], _ => []
  | c :: rest, 0 => { c with quantity := qty } :: rest
  | c :: rest, i + 1 => c :: updateQuantity rest i qty

/-- `removeItem` (script.js 160-163): `cart.splice(index, 1)`. -/
def removeItem (cart : List CartItem) (index : ℕ) : List CartItem :=
  cart.eraseIdx index

/-- The per-line amount displayed by `renderOrder` (script.js 130):
`Number(item.book.discounted || item.book.price) * item.quantity`. -/
def lineSubtotal (item : CartItem) : ℚ :=
  jsOr item.book.discounted item.book.price * (item.quantity : ℚ)

/-- The running total accumulated by `renderOrder` (script.js 116, 131):
`let total = 0; cart.forEach(item => { ... total += price; })`. -/
def renderOrderTotal (cart : List CartItem) : ℚ :=
  cart.foldl (fun total item => total + lineSubtotal item) 0

/-- The total placed in the order payload by the submit handler
(script.js 189): `cart.reduce((sum, i) => sum + Number(i.book.discounted
|| i.book.price) * i.quantity, 0)`. -/
def orderPayloadTotal (cart : List CartItem) : ℚ :=
  cart.foldl (fun sum i => sum + jsOr i.book.discounted i.book.price * (i.quantity : ℚ)) 0

/-- The cart mutations of the script variant.  `toggle` carries the book
itself (the source passes an index into `books` and reads
`books[index]`). -/
inductive Op where
  | toggle (book : Book)
  | update (index : ℕ) (qty : ℤ)
  | removeAt (index : ℕ)

def applyOp (cart : List CartItem) (op : Op) : List CartItem :=
  match op with
  | .toggle b => toggleBook cart b
  | .update i q => updateQuantity cart i q
  | .removeAt i => removeItem cart i

/-- Running a sequence of cart mutations from the initial empty cart. -/
def applyOps (ops : List Op) : List CartItem :=
  ops.foldl applyOp []

/-- The user-entered fields of the order form (script.js 182-187). -/
structure OrderForm where
  fullname : String
  email : String
  contact : String
  fb : String
  pickup : String
  pickupdate : String
deriving DecidableEq

/-- `this.reset()` returns every form control to its default (empty)
value. -/
def emptyForm : OrderForm :=
  { fullname := "", email := "", contact := "", fb := "", pickup := "", pickupdate := "" }

/-- The state the submit handler can read or write: the module-level
`cart` and the form fields. -/
structure PageState where
  cart : List CartItem
  form : OrderForm
deriving DecidableEq

/-- Outcome of the POST to the Apps Script endpoint: the resolved JSON
carries an `orderId`, a rejection lands in `catch`. -/
inductive RemoteResult where
  | success (orderId : String)
  | failure

/-- The submit handler (script.js 172-209).  Returns the new page state,
whether the remote POST was fired, and the alert text shown to the user.
An empty cart is rejected before any network activity; on success the
form is reset and the cart cleared; on failure nothing is touched. -/
def submitOrder (s : PageState) (remote : RemoteResult) : PageState × Bool × String :=
  if s.cart = [] then
    (s, false, "Please select at least one book before confirming order.")
  else
    match remote with
    | .success orderId =>
        ({ cart := [], form := emptyForm }, true, "Order confirmed! Your Order ID: " ++ orderId)
    | .failure => (s, true, "Failed to submit order. Please try again.")

end ScriptJs

namespace ReactFetch

/-- A book record of the React fetch variant (index.jsx, first half):
normalized by the Apps Script backend to these fields. -/
structure Book where
  id : String
  title : String
  author : String
  summary : String
  genre : String
  price : ℚ
  location : String
  image : String
deriving DecidableEq

/-- A cart entry.  The source spreads the book fields next to the counter
(`{ ...book, qty: 1 }`); we keep them as a nested record, which carries
the same data. -/
structure CartItem where
  book : Book
  qty : ℤ
deriving DecidableEq

/-- The filter inputs feeding the `filtered` memo (index.jsx 80-94): the
search text `q`, exact-match `genre` and `location`, and the two price
bound text fields.  `none` models the empty string input (falsy in the
`minPrice && ...` guards); a parsed number, even `0`, is `some`. -/
structure FilterSpec where
  q : String
  genre : String
  location : String
  minPrice : Option ℚ
  maxPrice : Option ℚ

/-- JS `String.prototype.includes`: contiguous substring containment. -/
def strIncludes (hay needle : String) : Bool :=
  decide (needle.data <:+: hay.data)

/-- The predicate of the `filtered` memo (index.jsx 82-93).  `Number(
b.price) || 0` only replaces a falsy price by `0`, which is the identity
on rationals, so the price is used directly. -/
def bookMatches (f : FilterSpec) (b : Book) : Bool :=
  let ql := (f.q.trim).toLower
  let hay := (b.title ++ " " ++ b.author ++ " " ++ b.genre).toLower
  (ql == "" || strIncludes hay ql) &&
  (f.genre == "" || b.genre == f.genre) &&
  (f.location == "" || b.location == f.location) &&
  (match f.minPrice with
   | none => true
   | some m => !(decide (b.price < m))) &&
  (match f.maxPrice with
   | none => true
   | some m => !(decide (m < b.price)))

/-- `filtered` (index.jsx 80-94): `books.filter(...)`. -/
def filtered (books : List Book) (f : FilterSpec) : List Book :=
  books.filter (bookMatches f)

/-- `addToCart` (index.jsx 96-106): `findIndex` the entry whose `id`
matches, bump its `qty` in a copied array, otherwise append
`{ ...book, qty: 1 }`.  Rendered here as structural recursion on the
first matching entry. -/
def addToCart (cart : List CartItem) (book : Book) : List CartItem :=
  match cart with
  | [] => [{ book := book, qty := 1 }]
  | c :: rest =>
      if c.book.id = book.id then { c with qty := c.qty + 1 } :: rest
      else c :: addToCart rest book

/-- `updateQty` (index.jsx 108-110): map every entry, replacing the `qty`
of the matching id by `Math.max(1, qty)`. -/
def updateQty (cart : List CartItem) (id : String) (qty : ℤ) : List CartItem :=
  cart.map (fun it => if it.book.id = id then { it with qty := max 1 qty } else it)

/-- `removeFromCart` (index.jsx 112-114): keep the entries whose id
differs. -/
def removeFromCart (cart : List CartItem) (id : String) : List CartItem :=
  cart.filter (fun it => it.book.id != id)

/-- `subtotal` (index.jsx 116): `cart.reduce((s, it) => s + (Number(
it.price) || 0) * it.qty, 0)`. -/
def subtotal (cart : List CartItem) : ℚ :=
  cart.foldl (fun s it => s + it.book.price * (it.qty : ℚ)) 0

/-- The state `submitOrder` can read or write: the cart, the user-entered
checkout fields, and the transient `submitting`/`successMsg` UI flags. -/
structure FormState where
  cart : List CartItem
  sheetId : String
  fullName : String
  email : String
  phone : String
  fbName : String
  pickup : String
  notes : String
  paymentFile : Option String
  submitting : Bool
  successMsg : String
deriving DecidableEq

/-- Outcome of the `/reserve` POST: a resolved OK response carrying an
optional `message`, or a rejection / non-OK response whose display text
(`err.message || String(err)`) lands in the `catch`. -/
inductive RemoteReply where
  | ok (message : Option String)
  | fail (errorText : String)

/-- `submitOrder` (index.jsx 118-156).  Returns the new state, whether
the POST was fired, and the alert text (if any).  An empty cart is
rejected before any network activity.  On success the cart and the
entered fields are reset (`pickup` and `sheetId` are not).  On failure
only the transient flags move (`setSubmitting(true)` then `false` in
`finally`, `setSuccessMsg("")` before the call); cart and fields stay. -/
def submitOrder (s : FormState) (remote : RemoteReply) : FormState × Bool × Option String :=
  if s.cart = [] then
    (s, false, some "Your cart is empty.")
  else
    match remote with
    | .ok msg =>
        ({ s with
            cart := []
            fullName := ""
            email := ""
            phone := ""
            fbName := ""
            notes := ""
            paymentFile := none
            submitting := false
            successMsg := msg.getD "Order submitted. Thank you!" }, true, none)
    | .fail err =>
        ({ s with submitting := false, successMsg := "" }, true, some err)

end ReactFetch

namespace ReactLocal

/-- A book of the fully local variant (index.jsx, second half): base
`price` plus an optional `discountPct` (0-100 by intent, but any number
can be entered through the quick-add form). -/
structure Book where
  id : String
  title : String
  author : String
  summary : String
  genre : String
  price : ℚ
  discountPct : Option ℚ
  image : String
deriving DecidableEq

/-- A cart line: `{ book, qty }`. -/
structure CartItem where
  book : Book
  qty : ℤ
deriving DecidableEq

/-- The clamp inside `discounted` (index.jsx 499):
`Math.max(0, Math.min(100, book.discountPct || 0))`. -/
def clampPct (p : ℚ) : ℚ := max 0 (min 100 p)

/-- `discounted` (index.jsx 498-501):
`Math.round((book.price * (100 - pct)) / 100)` with the clamped
percentage; `book.discountPct || 0` defaults a missing (or zero)
discount to `0`. -/
def discounted (book : Book) : ℤ :=
  round ((book.price * (100 - clampPct (book.discountPct.getD 0))) / 100)

/-- The `total` memo (index.jsx 513-516):
`cart.reduce((sum, it) => sum + discounted(it.book) * it.qty, 0)`. -/
def total (cart : List CartItem) : ℤ :=
  cart.foldl (fun sum it => sum + discounted it.book * it.qty) 0

/-- The per-line amount displayed in the Summary card (index.jsx 829):
`item.qty * discounted(item.book)`. -/
def lineAmount (item : CartItem) : ℤ :=
  item.qty * discounted item.book

/-- `addToCart` (index.jsx 518-528): bump the `qty` of the first entry
whose book id matches, otherwise append `{ book, qty: 1 }`. -/
def addToCart (cart : List CartItem) (book : Book) : List CartItem :=
  match cart with
  | [] => [{ book := book, qty := 1 }]
  | c :: rest =>
      if c.book.id = book.id then { c with qty := c.qty + 1 } :: rest
      else c :: addToCart rest book

/-- `setQty` (index.jsx 530-536): map the matching entry to
`Math.max(1, qty)` then drop entries with non-positive `qty` (the filter
is vacuous after the clamp). -/
def setQty (cart : List CartItem) (bookId : String) (qty : ℤ) : List CartItem :=
  (cart.map (fun x => if x.book.id = bookId then { x with qty := max 1 qty } else x)).filter
    (fun x => decide (0 < x.qty))

/-- `removeItem` (index.jsx 538): keep the entries whose book id
differs. -/
def removeItem (cart : List CartItem) (bookId : String) : List CartItem :=
  cart.filter (fun x => x.book.id != bookId)

/-- `clearCart` (index.jsx 540): `setCart([])`. -/
def clearCart (_cart : List CartItem) : List CartItem := []

/-- The state of the local page around `printSlip`: the cart plus the
on-device note and optional contact fields. -/
structure PageState where
  cart : List CartItem
  note : String
  showContact : Bool
  name : String
  email : String
  phone : String
deriving DecidableEq

/-- What an action may ask of the host environment. -/
inductive HostEffect where
  | network
  | print
deriving DecidableEq

/-- `printSlip` (index.jsx 542-545): the body is `window.print()` and
nothing else — it requests the host print facility and leaves the page
state alone. -/
def printSlip (s : PageState) : PageState × HostEffect :=
  (s, HostEffect.print)

/-- The cart mutations of the local variant. -/
inductive Op where
  | add (book : Book)
  | set (bookId : String) (qty : ℤ)
  | remove (bookId : String)
  | clear

def applyOp (cart : List CartItem) (op : Op) : List CartItem :=
  match op with
  | .add b => addToCart cart b
  | .set id q => setQty cart id q
  | .remove id => removeItem cart id
  | .clear => clearCart cart

/-- Running a sequence of cart mutations from the initial empty cart. -/
def applyOps (ops : List Op) : List CartItem :=
  ops.foldl applyOp []

end ReactLocal

/-! Concrete sample data, used by the closed witness and counterexample
theorems below.  The books mirror rows of the sample catalog in
`src/index.jsx`. -/

/-- A concrete spreadsheet row for the script variant, with a
server-provided discounted price. -/
def demoSBook : ScriptJs.Book :=
  { title := "Trailblazing Success", author := "Rex Mendoza", genre := "Business",
    price := 100, discounted := some 80 }

def demoFetchBookA : ReactFetch.Book :=
  { id := "1", title := "How Good People Like You Can Become Rich",
    author := "Bo Sanchez", summary := "", genre := "Finance", price := 385,
    location := "Cebu", image := "" }

def demoFetchBookB : ReactFetch.Book :=
  { id := "2", title := "God, Why Does It Hurt?", author := "Bo Sanchez",
    summary := "", genre := "Faith", price := 375, location := "Cebu", image := "" }

def demoLocalBook : ReactLocal.Book :=
  { id := "1", title := "How Good People Like You Can Become Rich",
    author := "Bo Sanchez", summary := "", genre := "Inspirational / Finance",
    price := 385, discountPct := some 20, image := "" }

/-- A one-peso book with a 40 percent discount: the discounted amount
rounds straight back to the base price. -/
def demoCheapLocalBook : ReactLocal.Book :=
  { id := "5", title := "Pamphlet", author := "Anon", summary := "", genre := "",
    price := 1, discountPct := some 40, image := "" }

/-- A book whose entered discount percentage lies outside [0, 100]. -/
def demoOverLocalBook : ReactLocal.Book :=
  { id := "6", title := "Gift Copy", author := "Anon", summary := "", genre := "",
    price := 385, discountPct := some 150, image := "" }

def demoLocalBookB : ReactLocal.Book :=
  { id := "2", title := "God, Why Does It Hurt?", author := "Bo Sanchez",
    summary := "", genre := "Faith", price := 375, discountPct := some 10, image := "" }

def demoEmptyPage : ScriptJs.PageState :=
  { cart := [], form := ScriptJs.emptyForm }

def demoFullPage : ScriptJs.PageState :=
  { cart := [{ book := demoSBook, quantity := 1 }],
    form := { ScriptJs.emptyForm with fullname := "Ana", email := "ana@example.com" } }

def demoFetchStateEmpty : ReactFetch.FormState :=
  { cart := [], sheetId := "sheet", fullName := "Ana", email := "ana@example.com",
    phone := "0917", fbName := "", pickup := "Feast ayala - Sunday", notes := "",
    paymentFile := none, submitting := false, successMsg := "" }

def demoFetchStateFull : ReactFetch.FormState :=
  { demoFetchStateEmpty with cart := [{ book := demoFetchBookA, qty := 2 }] }

/-- A cart of the fetch variant already holding book 1. -/
def demoCartP : List ReactFetch.CartItem :=
  [{ book := demoFetchBookA, qty := 1 }]

/-- A cart of the local variant already holding book 1. -/
def demoLocalCartP : List ReactLocal.CartItem :=
  [{ book := demoLocalBook, qty := 1 }]

/-- A book with a fractional base price (three fifths of a peso) and a
zero discount: rounding the base price itself already moves the
effective unit price above the base price. -/
def demoFracLocalBook : ReactLocal.Book :=
  { id := "7", title := "Leaflet", author := "Anon", summary := "", genre := "",
    price := 3/5, discountPct := some 0, image := "" }

/-! Generic helper lemmas. -/

/-- A left fold that keeps adding `f x` is the sum of the mapped list. -/
theorem foldl_add_map_sum {α M : Type} [AddCommMonoid M] (f : α → M) (l : List α) (a : M) :
    l.foldl (fun s x => s + f x) a = a + (l.map f).sum := by
  induction l generalizing a with
  | nil => simp
  | cons x xs ih => simp [ih, add_assoc]

/-- Filtering twice by the same predicate is filtering once. -/
theorem filter_idem {α : Type} (p : α → Bool) (l : List α) :
    (l.filter p).filter p = l.filter p := by
  induction l with
  | nil => rfl
  | cons x xs ih =>
    by_cases h : p x <;> simp [List.filter_cons, h, ih]

/-! Claims C4, C7 and C9. -/

/-- Claim C4: after any sequence of cart operations, the total computed
for the order payload and the total accumulated by the renderer both
equal the sum of the per-line displayed subtotals, in the script variant;
likewise the `total` memo of the local variant equals the sum of the
per-line amounts shown in the Summary card.  No independent rounding path
diverges from the per-line display. -/
theorem claim_C4_theorem (ops : List ScriptJs.Op) (lops : List ReactLocal.Op) :
    ScriptJs.renderOrderTotal (ScriptJs.applyOps ops) =
      ((ScriptJs.applyOps ops).map ScriptJs.lineSubtotal).sum ∧
    ScriptJs.orderPayloadTotal (ScriptJs.applyOps ops) =
      ((ScriptJs.applyOps ops).map ScriptJs.lineSubtotal).sum ∧
    ReactLocal.total (ReactLocal.applyOps lops) =
      ((ReactLocal.applyOps lops).map ReactLocal.lineAmount).sum := by
  refine ⟨?_, ?_, ?_⟩
  · simpa [ScriptJs.renderOrderTotal] using
      foldl_add_map_sum ScriptJs.lineSubtotal (ScriptJs.applyOps ops) 0
  · simpa [ScriptJs.orderPayloadTotal, ScriptJs.lineSubtotal] using
      foldl_add_map_sum ScriptJs.lineSubtotal (ScriptJs.applyOps ops) 0
  · have h := foldl_add_map_sum (fun it => ReactLocal.discounted it.book * it.qty)
      (ReactLocal.applyOps lops) 0
    simpa [ReactLocal.total, ReactLocal.lineAmount, mul_comm] using h

/-- Claim C7: the filter over the catalog returns a sublist of the
source list (hence a subset in the original relative order), and
re-applying the same filter specification leaves the result unchanged.
The embedding is a pure function, matching the source `Array.filter`,
which never mutates the source list. -/
theorem claim_C7_theorem (books : List ReactFetch.Book) (f : ReactFetch.FilterSpec) :
    List.Sublist (ReactFetch.filtered books f) books ∧
    ReactFetch.filtered (ReactFetch.filtered books f) f = ReactFetch.filtered books f := by
  constructor
  · exact List.filter_sublist books
  · exact filter_idem (ReactFetch.bookMatches f) books

/-- Claim C9: in the fully local variant, `printSlip` requests the host
print facility only: it makes no network request and returns the page
state — cart contents and total included — unchanged. -/
theorem claim_C9_theorem (s : ReactLocal.PageState) :
    (ReactLocal.printSlip s).1 = s ∧
    (ReactLocal.printSlip s).1.cart = s.cart ∧
    ReactLocal.total (ReactLocal.printSlip s).1.cart = ReactLocal.total s.cart ∧
    (ReactLocal.printSlip s).2 = ReactLocal.HostEffect.print ∧
    (ReactLocal.printSlip s).2 ≠ ReactLocal.HostEffect.network :=
  ⟨rfl, rfl, rfl, rfl, by simp [ReactLocal.printSlip]⟩

/-! Claims C3 and C10: the `discounted` price computation. -/

/-- Claim C3 counterexample, two failing inputs.  First, the one-peso
book with a 40 percent discount: its effective unit price,
`round((1 * (100 - 40)) / 100)`, rounds back up to the base price `1`
although the discount percentage is not `0`, so _equality iff
discountPercent == 0_ fails on the code.  Second, the book with the
fractional non-negative base price `3/5` and a zero discount: the code
computes `round(3/5) = 1`, which exceeds the base price — so for
non-integer prices both _effectiveUnitPrice(B) <= B.price_ and the
zero-discount equality fail as well. -/
theorem claim_C3_counterexample :
    (demoCheapLocalBook.price = 1 ∧
     demoCheapLocalBook.discountPct = some 40 ∧
     (40 : ℚ) ≠ 0 ∧
     (ReactLocal.discounted demoCheapLocalBook : ℚ) = demoCheapLocalBook.price) ∧
    (demoFracLocalBook.price = 3/5 ∧
     demoFracLocalBook.discountPct = some 0 ∧
     0 ≤ demoFracLocalBook.price ∧
     ReactLocal.discounted demoFracLocalBook = 1 ∧
     ¬ (ReactLocal.discounted demoFracLocalBook : ℚ) ≤ demoFracLocalBook.price ∧
     (ReactLocal.discounted demoFracLocalBook : ℚ) ≠ demoFracLocalBook.price) := by
  have h1 : (ReactLocal.discounted demoCheapLocalBook : ℚ) = demoCheapLocalBook.price := by
    show ((round (((1:ℚ) * (100 - ReactLocal.clampPct ((some (40:ℚ)).getD 0))) / 100) : ℤ) : ℚ)
      = 1
    norm_num [ReactLocal.clampPct, round_eq]
  have h2 : ReactLocal.discounted demoFracLocalBook = 1 := by
    show round (((3/5:ℚ) * (100 - ReactLocal.clampPct ((some (0:ℚ)).getD 0))) / 100) = 1
    norm_num [ReactLocal.clampPct, round_eq]
  refine ⟨⟨rfl, rfl, by norm_num, h1⟩, rfl, rfl, by norm_num [demoFracLocalBook], h2, ?_, ?_⟩
  · rw [h2]
    norm_num [demoFracLocalBook]
  · rw [h2]
    norm_num [demoFracLocalBook]

/-- Claim C3 (amended): for a book with non-negative integer price and
`discountPct` in [0, 100], the effective unit price is
`round(price * (100 - discountPercent) / 100)` and never exceeds the base
price, and a zero discount leaves the price unchanged.  Both restrictions
are forced by the counterexample: the original _iff_ fails because a
small positive discount on a low price can round back to the base price,
and for a fractional base price even the upper bound and the
zero-discount equality fail, since rounding can push the effective price
above the base price. -/
theorem claim_C3_theorem (b : ReactLocal.Book) (n : ℕ) (p : ℚ)
    (hprice : b.price = (n : ℚ)) (hpct : b.discountPct = some p)
    (h0 : 0 ≤ p) (h100 : p ≤ 100) :
    ReactLocal.discounted b = round ((b.price * (100 - p)) / 100) ∧
    (ReactLocal.discounted b : ℚ) ≤ b.price ∧
    (p = 0 → (ReactLocal.discounted b : ℚ) = b.price) := by
  have hcl : ReactLocal.clampPct p = p := by
    unfold ReactLocal.clampPct
    rw [min_eq_right h100, max_eq_right h0]
  have hd : ReactLocal.discounted b = round ((b.price * (100 - p)) / 100) := by
    unfold ReactLocal.discounted
    rw [hpct]
    simp [hcl]
  refine ⟨hd, ?_, ?_⟩
  · have hx : ((n:ℚ) * (100 - p)) / 100 ≤ (n : ℚ) := by
      rw [div_le_iff₀ (by norm_num : (0:ℚ) < 100)]
      have hn : (0:ℚ) ≤ (n:ℚ) := by positivity
      nlinarith
    have hr : round (((n:ℚ) * (100 - p)) / 100) ≤ (n : ℤ) := by
      rw [round_eq]
      have h1 : (((n:ℚ) * (100 - p)) / 100 + 1/2 : ℚ) ≤ (n : ℚ) + 1/2 := by linarith
      calc ⌊((n:ℚ) * (100 - p)) / 100 + 1/2⌋ ≤ ⌊(n:ℚ) + 1/2⌋ := Int.floor_mono h1
        _ = n := by
            rw [show ((n:ℚ) + 1/2) = ((n:ℤ):ℚ) + 1/2 by push_cast; ring, Int.floor_int_add]
            norm_num
    rw [hd, hprice]
    exact_mod_cast hr
  · intro hp0
    subst hp0
    rw [hd, hprice]
    rw [show ((n:ℚ) * (100 - 0)) / 100 = ((n:ℚ)) by field_simp]
    rw [round_natCast]
    push_cast
    rfl

/-- Claim C3 witness: the sample book priced 385 with a 20 percent
discount satisfies the hypotheses, and the amended claim applies to
it. -/
theorem claim_C3_witness :
    (demoLocalBook.price = ((385 : ℕ) : ℚ) ∧ demoLocalBook.discountPct = some 20 ∧
      (0:ℚ) ≤ 20 ∧ (20:ℚ) ≤ 100) ∧
    (ReactLocal.discounted demoLocalBook = round ((demoLocalBook.price * (100 - 20)) / 100) ∧
     (ReactLocal.discounted demoLocalBook : ℚ) ≤ demoLocalBook.price ∧
     ((20:ℚ) = 0 → (ReactLocal.discounted demoLocalBook : ℚ) = demoLocalBook.price)) :=
  ⟨⟨by norm_num [demoLocalBook], rfl, by norm_num, by norm_num⟩,
   claim_C3_theorem demoLocalBook 385 20 (by norm_num [demoLocalBook]) rfl
     (by norm_num) (by norm_num)⟩

/-- Claim C10: `discounted` first clamps the percentage into [0, 100],
so for any book with non-negative price — whatever the entered
`discountPct`, negative, above 100 or absent — the effective unit price
is the rounded discount of the clamped percentage, lies between 0 and the
rounded base price, can never go negative for an oversized discount and
can never exceed the rounded base price for a negative discount. -/
theorem claim_C10_theorem (b : ReactLocal.Book) (hp : 0 ≤ b.price) :
    0 ≤ ReactLocal.clampPct (b.discountPct.getD 0) ∧
    ReactLocal.clampPct (b.discountPct.getD 0) ≤ 100 ∧
    ReactLocal.discounted b =
      round ((b.price * (100 - ReactLocal.clampPct (b.discountPct.getD 0))) / 100) ∧
    0 ≤ ReactLocal.discounted b ∧
    ReactLocal.discounted b ≤ round b.price := by
  have h0c : 0 ≤ ReactLocal.clampPct (b.discountPct.getD 0) := le_max_left _ _
  have h100 : ReactLocal.clampPct (b.discountPct.getD 0) ≤ 100 :=
    max_le (by norm_num) (min_le_left _ _)
  set c := ReactLocal.clampPct (b.discountPct.getD 0) with hc
  have hx0 : 0 ≤ (b.price * (100 - c)) / 100 :=
    div_nonneg (mul_nonneg hp (by linarith)) (by norm_num)
  have hxp : (b.price * (100 - c)) / 100 ≤ b.price := by
    rw [div_le_iff₀ (by norm_num : (0:ℚ) < 100)]
    nlinarith
  refine ⟨h0c, h100, rfl, ?_, ?_⟩
  · unfold ReactLocal.discounted
    rw [round_eq, ← hc]
    exact Int.le_floor.mpr (by push_cast; linarith)
  · unfold ReactLocal.discounted
    rw [round_eq, round_eq, ← hc]
    exact Int.floor_mono (by linarith)

/-- Claim C10 witness: the book whose entered discount percentage is 150
has non-negative price, and the clamping theorem applies to it (its
effective unit price is the fully discounted, clamped value). -/
theorem claim_C10_witness :
    (0 : ℚ) ≤ demoOverLocalBook.price ∧
    (0 ≤ ReactLocal.clampPct (demoOverLocalBook.discountPct.getD 0) ∧
     ReactLocal.clampPct (demoOverLocalBook.discountPct.getD 0) ≤ 100 ∧
     ReactLocal.discounted demoOverLocalBook =
       round ((demoOverLocalBook.price *
         (100 - ReactLocal.clampPct (demoOverLocalBook.discountPct.getD 0))) / 100) ∧
     0 ≤ ReactLocal.discounted demoOverLocalBook ∧
     ReactLocal.discounted demoOverLocalBook ≤ round demoOverLocalBook.price) :=
  ⟨by norm_num [demoOverLocalBook], claim_C10_theorem demoOverLocalBook
    (by norm_num [demoOverLocalBook])⟩

/-! Helper lemmas about the cart operations of the React variants. -/

namespace ReactFetch

/-- Adding a book raises the summed quantity of the cart by exactly 1:
either one existing line is bumped by 1, or one fresh line with qty 1 is
appended. -/
theorem sum_qty_addToCart (cart : List CartItem) (book : Book) :
    ((addToCart cart book).map (fun x => x.qty)).sum =
      (cart.map (fun x => x.qty)).sum + 1 := by
  induction cart with
  | nil => simp [addToCart]
  | cons c rest ih =>
    by_cases h : c.book.id = book.id
    · simp [addToCart, h]
      ring
    · simp [addToCart, h, ih]
      ring

/-- When a line for the id already exists, adding inserts nothing: the
cart keeps its length. -/
theorem length_addToCart_of_mem {cart : List CartItem} {book : Book}
    (h : ∃ x ∈ cart, x.book.id = book.id) :
    (addToCart cart book).length = cart.length := by
  induction cart with
  | nil => simp at h
  | cons c rest ih =>
    by_cases hid : c.book.id = book.id
    · simp [addToCart, hid]
    · obtain ⟨x, hx, hxid⟩ := h
      rcases List.mem_cons.mp hx with rfl | hxr
      · exact absurd hxid hid
      · simp [addToCart, hid, ih ⟨x, hxr, hxid⟩]

/-- When no line for the id exists, adding appends exactly one fresh
line with quantity 1. -/
theorem addToCart_of_not_mem {cart : List CartItem} {book : Book}
    (h : ∀ x ∈ cart, x.book.id ≠ book.id) :
    addToCart cart book = cart ++ [{ book := book, qty := 1 }] := by
  induction cart with
  | nil => rfl
  | cons c rest ih =>
    have hc : c.book.id ≠ book.id := h c (by simp)
    simp [addToCart, hc, ih (fun x hx => h x (List.mem_cons_of_mem c hx))]

/-- Lines whose id differs from the added book are untouched. -/
theorem mem_addToCart_of_ne {cart : List CartItem} {book : Book} {x : CartItem}
    (hx : x ∈ cart) (hne : x.book.id ≠ book.id) :
    x ∈ addToCart cart book := by
  induction cart with
  | nil => simp at hx
  | cons c rest ih =>
    by_cases hid : c.book.id = book.id
    · rcases List.mem_cons.mp hx with rfl | hxr
      · exact absurd hid hne
      · simp [addToCart, hid, hxr]
    · rcases List.mem_cons.mp hx with rfl | hxr
      · simp [addToCart, hid]
      · simp [addToCart, hid, ih hxr]

/-- `updateQty` is a map: it never changes the number of lines. -/
theorem updateQty_length (cart : List CartItem) (id : String) (qty : ℤ) :
    (updateQty cart id qty).length = cart.length := by
  simp [updateQty]

/-- The matching line survives `updateQty`, with its quantity clamped to
`max 1 qty`. -/
theorem updateQty_mem {cart : List CartItem} {id : String} (qty : ℤ)
    (h : ∃ x ∈ cart, x.book.id = id) :
    ∃ y ∈ updateQty cart id qty, y.book.id = id ∧ y.qty = max 1 qty := by
  obtain ⟨x, hx, hxid⟩ := h
  exact ⟨{ x with qty := max 1 qty },
    List.mem_map.mpr ⟨x, hx, by simp [hxid]⟩, hxid, rfl⟩

/-- After `updateQty` with a requested value below 1, every line with
the targeted id carries quantity exactly 1. -/
theorem updateQty_matching {cart : List CartItem} {id : String} {qty : ℤ}
    (hq : qty < 1) :
    ∀ x ∈ updateQty cart id qty, x.book.id = id → x.qty = 1 := by
  intro x hx hid
  rcases List.mem_map.mp hx with ⟨y, hy, hxy⟩
  by_cases h : y.book.id = id
  · rw [← hxy]
    simp [h]
    omega
  · rw [← hxy] at hid
    simp [h] at hid

end ReactFetch

namespace ReactLocal

/-- The matching line survives `setQty` (the clamp keeps its quantity
positive, so the trailing filter keeps it), with quantity `max 1 qty`. -/
theorem setQty_mem {cart : List CartItem} {bookId : String} (qty : ℤ)
    (h : ∃ x ∈ cart, x.book.id = bookId) :
    ∃ y ∈ setQty cart bookId qty, y.book.id = bookId ∧ y.qty = max 1 qty := by
  obtain ⟨x, hx, hxid⟩ := h
  refine ⟨{ x with qty := max 1 qty }, ?_, hxid, rfl⟩
  unfold setQty
  rw [List.mem_filter]
  refine ⟨List.mem_map.mpr ⟨x, hx, by simp [hxid]⟩, ?_⟩
  simp [lt_max_iff]

/-- After `setQty` with a requested value below 1, every line with the
targeted id carries quantity exactly 1. -/
theorem setQty_matching {cart : List CartItem} {bookId : String} {qty : ℤ}
    (hq : qty < 1) :
    ∀ y ∈ setQty cart bookId qty, y.book.id = bookId → y.qty = 1 := by
  intro y hy hid
  unfold setQty at hy
  rw [List.mem_filter] at hy
  rcases List.mem_map.mp hy.1 with ⟨x, hx, hxy⟩
  by_cases h : x.book.id = bookId
  · rw [← hxy]
    simp [h]
    omega
  · rw [← hxy] at hid
    simp [h] at hid

/-- Adding a book raises the summed quantity of the local cart by
exactly 1: either one existing line is bumped by 1, or one fresh line
with qty 1 is appended. -/
theorem sum_qty_addToCart_local (cart : List CartItem) (book : Book) :
    ((addToCart cart book).map (fun x => x.qty)).sum =
      (cart.map (fun x => x.qty)).sum + 1 := by
  induction cart with
  | nil => simp [addToCart]
  | cons c rest ih =>
    by_cases h : c.book.id = book.id
    · simp [addToCart, h]
      ring
    · simp [addToCart, h, ih]
      ring

/-- When a line for the id already exists, the local `addToCart`
inserts nothing: the cart keeps its length. -/
theorem length_addToCart_of_mem_local {cart : List CartItem} {book : Book}
    (h : ∃ x ∈ cart, x.book.id = book.id) :
    (addToCart cart book).length = cart.length := by
  induction cart with
  | nil => simp at h
  | cons c rest ih =>
    by_cases hid : c.book.id = book.id
    · simp [addToCart, hid]
    · obtain ⟨x, hx, hxid⟩ := h
      rcases List.mem_cons.mp hx with rfl | hxr
      · exact absurd hxid hid
      · simp [addToCart, hid, ih ⟨x, hxr, hxid⟩]

/-- When no line for the id exists, the local `addToCart` appends
exactly one fresh line with quantity 1. -/
theorem addToCart_of_not_mem_local {cart : List CartItem} {book : Book}
    (h : ∀ x ∈ cart, x.book.id ≠ book.id) :
    addToCart cart book = cart ++ [{ book := book, qty := 1 }] := by
  induction cart with
  | nil => rfl
  | cons c rest ih =>
    have hc : c.book.id ≠ book.id := h c (by simp)
    simp [addToCart, hc, ih (fun x hx => h x (List.mem_cons_of_mem c hx))]

/-- Lines whose id differs from the added book are untouched by the
local `addToCart`. -/
theorem mem_addToCart_of_ne_local {cart : List CartItem} {book : Book} {x : CartItem}
    (hx : x ∈ cart) (hne : x.book.id ≠ book.id) :
    x ∈ addToCart cart book := by
  induction cart with
  | nil => simp at hx
  | cons c rest ih =>
    by_cases hid : c.book.id = book.id
    · rcases List.mem_cons.mp hx with rfl | hxr
      · exact absurd hid hne
      · simp [addToCart, hid, hxr]
    · rcases List.mem_cons.mp hx with rfl | hxr
      · simp [addToCart, hid]
      · simp [addToCart, hid, ih hxr]

end ReactLocal

/-! Claims C1 and C2. -/

/-- Claim C1 counterexample: in the script variant the cart operation
bound to each book is `toggleBook`; invoking it twice with the same book
starting from an empty cart first inserts the line and then removes it
again, yielding an empty cart rather than a single CartItem with
quantity 2.  The claim, quantified over every cart state, fails on this
code path. -/
theorem claim_C1_counterexample :
    ScriptJs.toggleBook [] demoSBook = [{ book := demoSBook, quantity := 1 }] ∧
    ScriptJs.toggleBook (ScriptJs.toggleBook [] demoSBook) demoSBook = [] := by
  constructor
  · rfl
  · rfl

/-- Claim C1 (amended): in both React variants `addToCart` behaves as
claimed — with a book whose id already has a CartItem it increments that
line by 1 and inserts nothing (length unchanged, other lines untouched,
summed quantity up by exactly 1); with an absent id it appends exactly
one CartItem with quantity 1; adding the same book twice from an empty
cart yields exactly one CartItem with quantity 2.  In the script variant
the corresponding operation is a toggle and instead removes a book that
is already in the cart (see the counterexample). -/
theorem claim_C1_theorem
    (cartP cartA : List ReactFetch.CartItem) (book : ReactFetch.Book)
    (cartP2 cartA2 : List ReactLocal.CartItem) (book2 : ReactLocal.Book)
    (hP : ∃ x ∈ cartP, x.book.id = book.id)
    (hA : ∀ x ∈ cartA, x.book.id ≠ book.id)
    (hP2 : ∃ x ∈ cartP2, x.book.id = book2.id)
    (hA2 : ∀ x ∈ cartA2, x.book.id ≠ book2.id) :
    (((ReactFetch.addToCart cartP book).length = cartP.length ∧
      ((ReactFetch.addToCart cartP book).map (fun x => x.qty)).sum =
        (cartP.map (fun x => x.qty)).sum + 1 ∧
      ∀ x ∈ cartP, x.book.id ≠ book.id → x ∈ ReactFetch.addToCart cartP book) ∧
     ReactFetch.addToCart cartA book = cartA ++ [{ book := book, qty := 1 }] ∧
     ReactFetch.addToCart (ReactFetch.addToCart [] book) book =
       [{ book := book, qty := 2 }]) ∧
    (((ReactLocal.addToCart cartP2 book2).length = cartP2.length ∧
      ((ReactLocal.addToCart cartP2 book2).map (fun x => x.qty)).sum =
        (cartP2.map (fun x => x.qty)).sum + 1 ∧
      ∀ x ∈ cartP2, x.book.id ≠ book2.id → x ∈ ReactLocal.addToCart cartP2 book2) ∧
     ReactLocal.addToCart cartA2 book2 = cartA2 ++ [{ book := book2, qty := 1 }] ∧
     ReactLocal.addToCart (ReactLocal.addToCart [] book2) book2 =
       [{ book := book2, qty := 2 }]) := by
  refine ⟨⟨⟨ReactFetch.length_addToCart_of_mem hP,
      ReactFetch.sum_qty_addToCart cartP book,
      fun x hx hne => ReactFetch.mem_addToCart_of_ne hx hne⟩,
    ReactFetch.addToCart_of_not_mem hA, ?_⟩,
    ⟨⟨ReactLocal.length_addToCart_of_mem_local hP2,
      ReactLocal.sum_qty_addToCart_local cartP2 book2,
      fun x hx hne => ReactLocal.mem_addToCart_of_ne_local hx hne⟩,
    ReactLocal.addToCart_of_not_mem_local hA2, ?_⟩⟩
  · simp [ReactFetch.addToCart]
  · simp [ReactLocal.addToCart]

/-- Claim C1 witness: carts already holding book 1 satisfy the
present-id hypotheses, the empty carts the absent-id hypotheses, and
the amended claim applies to them in both React variants. -/
theorem claim_C1_witness :
    ((∃ x ∈ demoCartP, x.book.id = demoFetchBookA.id) ∧
      (∀ x ∈ ([] : List ReactFetch.CartItem), x.book.id ≠ demoFetchBookA.id) ∧
      (∃ x ∈ demoLocalCartP, x.book.id = demoLocalBook.id) ∧
      ∀ x ∈ ([] : List ReactLocal.CartItem), x.book.id ≠ demoLocalBook.id) ∧
    ((((ReactFetch.addToCart demoCartP demoFetchBookA).length = demoCartP.length ∧
      ((ReactFetch.addToCart demoCartP demoFetchBookA).map (fun x => x.qty)).sum =
        (demoCartP.map (fun x => x.qty)).sum + 1 ∧
      ∀ x ∈ demoCartP, x.book.id ≠ demoFetchBookA.id →
        x ∈ ReactFetch.addToCart demoCartP demoFetchBookA) ∧
     ReactFetch.addToCart [] demoFetchBookA =
       [] ++ [{ book := demoFetchBookA, qty := 1 }] ∧
     ReactFetch.addToCart (ReactFetch.addToCart [] demoFetchBookA) demoFetchBookA =
       [{ book := demoFetchBookA, qty := 2 }]) ∧
     (((ReactLocal.addToCart demoLocalCartP demoLocalBook).length = demoLocalCartP.length ∧
      ((ReactLocal.addToCart demoLocalCartP demoLocalBook).map (fun x => x.qty)).sum =
        (demoLocalCartP.map (fun x => x.qty)).sum + 1 ∧
      ∀ x ∈ demoLocalCartP, x.book.id ≠ demoLocalBook.id →
        x ∈ ReactLocal.addToCart demoLocalCartP demoLocalBook) ∧
     ReactLocal.addToCart [] demoLocalBook =
       [] ++ [{ book := demoLocalBook, qty := 1 }] ∧
     ReactLocal.addToCart (ReactLocal.addToCart [] demoLocalBook) demoLocalBook =
       [{ book := demoLocalBook, qty := 2 }])) :=
  ⟨⟨by decide, by decide, by decide, by decide⟩,
   claim_C1_theorem demoCartP [] demoFetchBookA demoLocalCartP [] demoLocalBook
     (by decide) (by decide) (by decide) (by decide)⟩

/-- Claim C2 counterexample: in the script variant `updateQuantity`
stores the requested value as-is.  Requesting quantity 0 for the only
cart line leaves that line with quantity 0 — not clamped to 1 — so the
claim, quantified over both code paths, fails here. -/
theorem claim_C2_counterexample :
    ScriptJs.updateQuantity [{ book := demoSBook, quantity := 1 }] 0 0 =
      [{ book := demoSBook, quantity := 0 }] ∧ (0 : ℤ) ≠ 1 := by
  exact ⟨rfl, by decide⟩

/-- Claim C2 (amended): in the React variants the requested quantity is
clamped to a minimum of 1 — for any requested value below 1 (0 or
negative) the matching line stays in the cart with quantity exactly 1,
never 0 or negative, and no line is removed.  In the script variant
`updateQuantity` stores the requested value unclamped (see the
counterexample); only the min attribute of the rendered number input
discourages such values. -/
theorem claim_C2_theorem
    (cart1 : List ReactFetch.CartItem) (cart2 : List ReactLocal.CartItem)
    (id1 id2 : String) (q1 q2 : ℤ)
    (hq1 : q1 < 1) (hq2 : q2 < 1)
    (hmem1 : ∃ x ∈ cart1, x.book.id = id1)
    (hmem2 : ∃ x ∈ cart2, x.book.id = id2) :
    ((ReactFetch.updateQty cart1 id1 q1).length = cart1.length ∧
     (∃ y ∈ ReactFetch.updateQty cart1 id1 q1, y.book.id = id1 ∧ y.qty = 1) ∧
     ∀ y ∈ ReactFetch.updateQty cart1 id1 q1, y.book.id = id1 → y.qty = 1) ∧
    ((∃ y ∈ ReactLocal.setQty cart2 id2 q2, y.book.id = id2 ∧ y.qty = 1) ∧
     ∀ y ∈ ReactLocal.setQty cart2 id2 q2, y.book.id = id2 → y.qty = 1) := by
  have hmax1 : max 1 q1 = 1 := max_eq_left (le_of_lt hq1)
  have hmax2 : max 1 q2 = 1 := max_eq_left (le_of_lt hq2)
  refine ⟨⟨ReactFetch.updateQty_length cart1 id1 q1, ?_,
      ReactFetch.updateQty_matching hq1⟩, ⟨?_, ReactLocal.setQty_matching hq2⟩⟩
  · obtain ⟨y, hy, hid, hqty⟩ := ReactFetch.updateQty_mem q1 hmem1
    exact ⟨y, hy, hid, by rw [hqty, hmax1]⟩
  · obtain ⟨y, hy, hid, hqty⟩ := ReactLocal.setQty_mem q2 hmem2
    exact ⟨y, hy, hid, by rw [hqty, hmax2]⟩

/-- Claim C2 witness: requesting quantity 0 (fetch variant) and -5
(local variant) on carts holding the targeted books satisfies the
hypotheses, and the amended claim applies. -/
theorem claim_C2_witness :
    ((0 : ℤ) < 1 ∧ (-5 : ℤ) < 1 ∧
      (∃ x ∈ demoCartP, x.book.id = demoFetchBookA.id) ∧
      (∃ x ∈ [{ book := demoLocalBook, qty := 3 : ReactLocal.CartItem }],
        x.book.id = demoLocalBook.id)) ∧
    (((ReactFetch.updateQty demoCartP demoFetchBookA.id 0).length = demoCartP.length ∧
      (∃ y ∈ ReactFetch.updateQty demoCartP demoFetchBookA.id 0,
        y.book.id = demoFetchBookA.id ∧ y.qty = 1) ∧
      ∀ y ∈ ReactFetch.updateQty demoCartP demoFetchBookA.id 0,
        y.book.id = demoFetchBookA.id → y.qty = 1) ∧
     ((∃ y ∈ ReactLocal.setQty [{ book := demoLocalBook, qty := 3 }] demoLocalBook.id (-5),
        y.book.id = demoLocalBook.id ∧ y.qty = 1) ∧
      ∀ y ∈ ReactLocal.setQty [{ book := demoLocalBook, qty := 3 }] demoLocalBook.id (-5),
        y.book.id = demoLocalBook.id → y.qty = 1)) :=
  ⟨⟨by decide, by decide, by decide, by decide⟩,
   claim_C2_theorem demoCartP [{ book := demoLocalBook, qty := 3 }]
     demoFetchBookA.id demoLocalBook.id 0 (-5)
     (by decide) (by decide) (by decide) (by decide)⟩

/-! Claims C5 and C6: the order-submission boundary. -/

/-- Claim C5: a submit on an empty cart is blocked locally in both
remote-posting variants: the validation alert is surfaced, the remote
flag is `false` (the fetch is never reached, whatever the remote would
have answered), and the state is returned unchanged. -/
theorem claim_C5_theorem
    (s : ScriptJs.PageState) (r : ScriptJs.RemoteResult)
    (t : ReactFetch.FormState) (r2 : ReactFetch.RemoteReply)
    (hs : s.cart = []) (ht : t.cart = []) :
    ScriptJs.submitOrder s r =
      (s, false, "Please select at least one book before confirming order.") ∧
    ReactFetch.submitOrder t r2 = (t, false, some "Your cart is empty.") := by
  constructor
  · simp [ScriptJs.submitOrder, hs]
  · simp [ReactFetch.submitOrder, ht]

/-- Claim C5 witness: concrete empty-cart states for both variants; the
remote outcome argument is irrelevant since the call is never fired. -/
theorem claim_C5_witness :
    (demoEmptyPage.cart = [] ∧ demoFetchStateEmpty.cart = []) ∧
    (ScriptJs.submitOrder demoEmptyPage ScriptJs.RemoteResult.failure =
      (demoEmptyPage, false, "Please select at least one book before confirming order.") ∧
     ReactFetch.submitOrder demoFetchStateEmpty (ReactFetch.RemoteReply.fail "network down") =
      (demoFetchStateEmpty, false, some "Your cart is empty.")) :=
  ⟨⟨rfl, rfl⟩,
   claim_C5_theorem demoEmptyPage ScriptJs.RemoteResult.failure
     demoFetchStateEmpty (ReactFetch.RemoteReply.fail "network down") rfl rfl⟩

/-- Claim C6: when the remote submission rejects, both remote-posting
variants keep the cart and every user-entered form field exactly as they
were before the attempt (only the transient submitting/success flags of
the fetch variant move), and a human-readable failure alert is
surfaced — so the user can retry. -/
theorem claim_C6_theorem
    (s : ScriptJs.PageState) (t : ReactFetch.FormState) (err : String)
    (hs : s.cart ≠ []) (ht : t.cart ≠ []) :
    (ScriptJs.submitOrder s ScriptJs.RemoteResult.failure).1 = s ∧
    (ScriptJs.submitOrder s ScriptJs.RemoteResult.failure).2.2 =
      "Failed to submit order. Please try again." ∧
    ((ReactFetch.submitOrder t (ReactFetch.RemoteReply.fail err)).1.cart = t.cart ∧
     (ReactFetch.submitOrder t (ReactFetch.RemoteReply.fail err)).1.fullName = t.fullName ∧
     (ReactFetch.submitOrder t (ReactFetch.RemoteReply.fail err)).1.email = t.email ∧
     (ReactFetch.submitOrder t (ReactFetch.RemoteReply.fail err)).1.phone = t.phone ∧
     (ReactFetch.submitOrder t (ReactFetch.RemoteReply.fail err)).1.fbName = t.fbName ∧
     (ReactFetch.submitOrder t (ReactFetch.RemoteReply.fail err)).1.pickup = t.pickup ∧
     (ReactFetch.submitOrder t (ReactFetch.RemoteReply.fail err)).1.notes = t.notes ∧
     (ReactFetch.submitOrder t (ReactFetch.RemoteReply.fail err)).1.paymentFile =
       t.paymentFile ∧
     (ReactFetch.submitOrder t (ReactFetch.RemoteReply.fail err)).2.2 = some err) := by
  refine ⟨?_, ?_, ?_⟩
  · simp [ScriptJs.submitOrder, hs]
  · simp [ScriptJs.submitOrder, hs]
  · simp [ReactFetch.submitOrder, ht]

/-- Claim C6 witness: concrete one-item carts with filled-in fields, and
a concrete rejection; the retry-state theorem applies to them. -/
theorem claim_C6_witness :
    (demoFullPage.cart ≠ [] ∧ demoFetchStateFull.cart ≠ []) ∧
    ((ScriptJs.submitOrder demoFullPage ScriptJs.RemoteResult.failure).1 = demoFullPage ∧
     (ScriptJs.submitOrder demoFullPage ScriptJs.RemoteResult.failure).2.2 =
       "Failed to submit order. Please try again." ∧
     ((ReactFetch.submitOrder demoFetchStateFull
         (ReactFetch.RemoteReply.fail "Failed to submit order")).1.cart =
        demoFetchStateFull.cart ∧
      (ReactFetch.submitOrder demoFetchStateFull
         (ReactFetch.RemoteReply.fail "Failed to submit order")).1.fullName =
        demoFetchStateFull.fullName ∧
      (ReactFetch.submitOrder demoFetchStateFull
         (ReactFetch.RemoteReply.fail "Failed to submit order")).1.email =
        demoFetchStateFull.email ∧
      (ReactFetch.submitOrder demoFetchStateFull
         (ReactFetch.RemoteReply.fail "Failed to submit order")).1.phone =
        demoFetchStateFull.phone ∧
      (ReactFetch.submitOrder demoFetchStateFull
         (ReactFetch.RemoteReply.fail "Failed to submit order")).1.fbName =
        demoFetchStateFull.fbName ∧
      (ReactFetch.submitOrder demoFetchStateFull
         (ReactFetch.RemoteReply.fail "Failed to submit order")).1.pickup =
        demoFetchStateFull.pickup ∧
      (ReactFetch.submitOrder demoFetchStateFull
         (ReactFetch.RemoteReply.fail "Failed to submit order")).1.notes =
        demoFetchStateFull.notes ∧
      (ReactFetch.submitOrder demoFetchStateFull
         (ReactFetch.RemoteReply.fail "Failed to submit order")).1.paymentFile =
        demoFetchStateFull.paymentFile ∧
      (ReactFetch.submitOrder demoFetchStateFull
         (ReactFetch.RemoteReply.fail "Failed to submit order")).2.2 =
        some "Failed to submit order")) :=
  ⟨⟨by decide, by decide⟩,
   claim_C6_theorem demoFullPage demoFetchStateFull "Failed to submit order"
     (by decide) (by decide)⟩

/-! Claim C8: at most one cart line per distinct book id. -/

namespace ReactLocal

/-- Every book id in the cart after an `addToCart` was already in the
cart or is the id of the added book. -/
theorem mem_ids_addToCart {cart : List CartItem} {book : Book} {s : String}
    (h : s ∈ (addToCart cart book).map (fun x => x.book.id)) :
    s ∈ cart.map (fun x => x.book.id) ∨ s = book.id := by
  induction cart with
  | nil => simpa [addToCart] using h
  | cons c rest ih =>
    by_cases hid : c.book.id = book.id
    · rw [show addToCart (c :: rest) book =
          { c with qty := c.qty + 1 } :: rest by simp [addToCart, hid]] at h
      rw [List.map_cons] at h ⊢
      rcases List.mem_cons.mp h with h | h
      · exact Or.inl (List.mem_cons.mpr (Or.inl h))
      · exact Or.inl (List.mem_cons.mpr (Or.inr h))
    · rw [show addToCart (c :: rest) book = c :: addToCart rest book by
          simp [addToCart, hid]] at h
      rw [List.map_cons] at h ⊢
      rcases List.mem_cons.mp h with h | h
      · exact Or.inl (List.mem_cons.mpr (Or.inl h))
      · rcases ih h with h2 | h2
        · exact Or.inl (List.mem_cons.mpr (Or.inr h2))
        · exact Or.inr h2

/-- `addToCart` preserves distinctness of the book ids. -/
theorem nodup_ids_addToCart {cart : List CartItem} (book : Book)
    (h : (cart.map (fun x => x.book.id)).Nodup) :
    ((addToCart cart book).map (fun x => x.book.id)).Nodup := by
  induction cart with
  | nil => simp [addToCart]
  | cons c rest ih =>
    by_cases hid : c.book.id = book.id
    · simpa [addToCart, hid] using h
    · rw [List.map_cons, List.nodup_cons] at h
      obtain ⟨hnotin, hrest⟩ := h
      rw [show addToCart (c :: rest) book = c :: addToCart rest book by
            simp [addToCart, hid],
          List.map_cons, List.nodup_cons]
      refine ⟨fun hmem => ?_, ih hrest⟩
      rcases mem_ids_addToCart hmem with h1 | h1
      · exact hnotin h1
      · exact hid h1

/-- The map inside `setQty` only touches quantities: the id column is
unchanged. -/
theorem ids_setQty_map (cart : List CartItem) (bookId : String) (qty : ℤ) :
    ((cart.map (fun x => if x.book.id = bookId then { x with qty := max 1 qty } else x)).map
      (fun x => x.book.id)) = cart.map (fun x => x.book.id) := by
  induction cart with
  | nil => rfl
  | cons c rest ih =>
    by_cases h : c.book.id = bookId <;> simp [h, ih]

/-- `setQty` preserves distinctness of the book ids. -/
theorem nodup_ids_setQty {cart : List CartItem} (bookId : String) (qty : ℤ)
    (h : (cart.map (fun x => x.book.id)).Nodup) :
    ((setQty cart bookId qty).map (fun x => x.book.id)).Nodup := by
  unfold setQty
  refine List.Nodup.sublist ?_ h
  have hsub := List.Sublist.map (fun x : CartItem => x.book.id)
    (List.filter_sublist (p := fun x => decide (0 < x.qty))
      (cart.map (fun x => if x.book.id = bookId then { x with qty := max 1 qty } else x)))
  rwa [ids_setQty_map] at hsub

/-- `removeItem` preserves distinctness of the book ids. -/
theorem nodup_ids_removeItem {cart : List CartItem} (bookId : String)
    (h : (cart.map (fun x => x.book.id)).Nodup) :
    ((removeItem cart bookId).map (fun x => x.book.id)).Nodup :=
  List.Nodup.sublist (List.Sublist.map _ (List.filter_sublist _)) h

/-- Every single local cart operation preserves distinctness of ids. -/
theorem nodup_ids_applyOp {cart : List CartItem} (op : Op)
    (h : (cart.map (fun x => x.book.id)).Nodup) :
    ((applyOp cart op).map (fun x => x.book.id)).Nodup := by
  cases op with
  | add b => exact nodup_ids_addToCart b h
  | set id q => exact nodup_ids_setQty id q h
  | remove id => exact nodup_ids_removeItem id h
  | clear => simp [applyOp, clearCart]

/-- Any run of local cart operations preserves distinctness of ids. -/
theorem nodup_ids_foldl (ops : List Op) :
    ∀ cart : List CartItem, (cart.map (fun x => x.book.id)).Nodup →
      ((ops.foldl applyOp cart).map (fun x => x.book.id)).Nodup := by
  induction ops with
  | nil => intro cart h; simpa using h
  | cons op rest ih => intro cart h; exact ih _ (nodup_ids_applyOp op h)

end ReactLocal

namespace ScriptJs

/-- `updateQuantity` only touches a quantity: the book column is
unchanged. -/
theorem books_updateQuantity (cart : List CartItem) (i : ℕ) (q : ℤ) :
    (updateQuantity cart i q).map (fun x => x.book) = cart.map (fun x => x.book) := by
  induction cart generalizing i with
  | nil => rfl
  | cons c rest ih =>
    cases i with
    | zero => simp [updateQuantity]
    | succ n => simp [updateQuantity, ih]

/-- `toggleBook` preserves distinctness of the books: a book already
present is removed, an absent one is appended once. -/
theorem nodup_books_toggleBook {cart : List CartItem} (b : Book)
    (h : (cart.map (fun x => x.book)).Nodup) :
    ((toggleBook cart b).map (fun x => x.book)).Nodup := by
  unfold toggleBook
  split
  next hmem => exact List.Nodup.sublist (List.Sublist.map _ (List.filter_sublist _)) h
  next hmem =>
    have hb : b ∉ cart.map (fun x => x.book) := by
      intro hbm
      rcases List.mem_map.mp hbm with ⟨x, hx, hxb⟩
      exact hmem (List.any_eq_true.mpr ⟨x, hx, by simp [hxb]⟩)
    simp [List.nodup_append, h, hb]

/-- Every single script cart operation preserves distinctness of the
books. -/
theorem nodup_books_applyOp {cart : List CartItem} (op : Op)
    (h : (cart.map (fun x => x.book)).Nodup) :
    ((applyOp cart op).map (fun x => x.book)).Nodup := by
  cases op with
  | toggle b => exact nodup_books_toggleBook b h
  | update i q =>
    show ((updateQuantity cart i q).map (fun x => x.book)).Nodup
    rwa [books_updateQuantity]
  | removeAt i =>
    exact List.Nodup.sublist (List.Sublist.map _ (List.eraseIdx_sublist cart i)) h

/-- Any run of script cart operations preserves distinctness of the
books. -/
theorem nodup_books_foldl (ops : List Op) :
    ∀ cart : List CartItem, (cart.map (fun x => x.book)).Nodup →
      ((ops.foldl applyOp cart).map (fun x => x.book)).Nodup := by
  induction ops with
  | nil => intro cart h; simpa using h
  | cons op rest ih => intro cart h; exact ih _ (nodup_books_applyOp op h)

end ScriptJs

/-- Claim C8: every cart reachable from the empty cart by the cart
operations keeps at most one CartItem per distinct book id — in the
local variant under add / setQuantity / remove / clear, and in the
script variant (where the book record itself stands for the id, which is
faithful under the unique-id-per-catalog-load assumption) under
toggle / update / splice. -/
theorem claim_C8_theorem (lops : List ReactLocal.Op) (sops : List ScriptJs.Op) :
    ((ReactLocal.applyOps lops).map (fun x => x.book.id)).Nodup ∧
    ((ScriptJs.applyOps sops).map (fun x => x.book)).Nodup := by
  constructor
  · unfold ReactLocal.applyOps
    exact ReactLocal.nodup_ids_foldl lops [] (by simp)
  · unfold ScriptJs.applyOps
    exact ScriptJs.nodup_books_foldl sops [] (by simp)
